import Mathlib

/-
  Verification development for the bevy_dioxus example programs
  (src/examples/demo.rs and src/examples/main_menu.rs).

  The examples are shallowly embedded: entity ids are Nat, durations are
  nanoseconds as Nat, fallible reads (Rust unwrap and panicking accessors)
  return Option where none models a panic, and the bridge hooks that are not
  present under src are modelled from the spec where noted.
-/

set_option autoImplicit false
set_option linter.unusedVariables false

namespace BevyDioxus

/-- Entity identifier (bevy Entity, modelled by its index). -/
abbrev Entity := Nat

/-- Pointer buttons delivered by bevy_mod_picking events. -/
inductive PointerButton
  | Primary
  | Secondary
  | Middle
deriving DecidableEq, Repr

/-- Menu and game states (main_menu.rs, MenuState). Main is the default. -/
inductive MenuState
  | Main
  | Game
  | Settings
  | Credits
deriving DecidableEq, Repr

/-- Actions performed by menu buttons (main_menu.rs, MenuButtonAction). -/
inductive MenuButtonAction
  | ChangeState (s : MenuState)
  | Exit
deriving DecidableEq, Repr

/-- Rust str split_once on character lists: splits at the first occurrence of
the separator, yielding the parts before and after it. -/
def splitOnceList (sep : List Char) : List Char → Option (List Char × List Char)
  | [] => if sep.isEmpty then some ([], []) else none
  | c :: rest =>
    if sep.isPrefixOf (c :: rest) then some ([], (c :: rest).drop sep.length)
    else (splitOnceList sep rest).map fun p => (c :: p.1, p.2)

/-- Rust str split_once: first occurrence of sep in s, as (before, after). -/
def split_once (s sep : String) : Option (String × String) :=
  (splitOnceList sep.data s.data).map fun p => (String.mk p.1, String.mk p.2)

/-- Rust str rsplit_once: last occurrence of sep in s, as (before, after). -/
def rsplit_once (s sep : String) : Option (String × String) :=
  (splitOnceList sep.data.reverse s.data.reverse).map fun p =>
    (String.mk p.2.reverse, String.mk p.1.reverse)

/-- Insertion step of the sort modelling Vec sort_by_key. -/
def insertBy {α : Type} (le : α → α → Bool) (a : α) : List α → List α
  | [] => [a]
  | b :: rest => if le a b then a :: b :: rest else b :: insertBy le a rest

/-- Insertion sort modelling Vec sort_by_key in the examples. -/
def sortBy {α : Type} (le : α → α → Bool) : List α → List α
  | [] => []
  | a :: rest => insertBy le a (sortBy le rest)

/-- Rendering state monad: component render logic threads the world through and
reads it via the bridge hooks. -/
def RenderM (σ : Type) (α : Type) : Type := σ → α × σ

instance (σ : Type) : Monad (RenderM σ) where
  pure a := fun s => (a, s)
  bind m f := fun s => f (m s).1 (m s).2

/-- A rendered element tree, keeping structure and text only (styling attributes
are out of scope per the spec non-goals). -/
inductive El
  | node (children : List El)
  | text (s : String)
deriving Repr

/-- The root components the two examples wrap in DioxusUiRoot. -/
inductive RootComponent
  | Editor
  | AppRoot
deriving DecidableEq, Repr

/-- Bundles spawned by the Startup systems: a DioxusUiBundle (a DioxusUiRoot
around the root component plus a default NodeBundle), or a default
Camera2dBundle together with a Name component. -/
inductive SpawnedBundle
  | dioxusUiBundle (dioxus_ui_root : RootComponent)
  | cameraBundle (name : String)
deriving DecidableEq, Repr

/-- Commands buffer: each spawn call appends one entity with its bundle. -/
structure Commands where
  spawned : List SpawnedBundle
deriving DecidableEq, Repr

/-- Commands.spawn queues one entity spawn carrying the given bundle. -/
def Commands.spawn (c : Commands) (b : SpawnedBundle) : Commands :=
  { spawned := c.spawned ++ [b] }

/-- The demo Startup system (demo.rs lines 21 to 27): spawns the DioxusUiBundle
with the Editor root and the named camera. -/
def demoStartup (commands : Commands) : Commands :=
  (commands.spawn (SpawnedBundle.dioxusUiBundle RootComponent.Editor)).spawn
    (SpawnedBundle.cameraBundle "Camera")

/-- The main_menu Startup system (main_menu.rs lines 12 to 18): spawns the
DioxusUiBundle with the AppRoot root and the named camera. -/
def mainMenuStartup (commands : Commands) : Commands :=
  (commands.spawn (SpawnedBundle.dioxusUiBundle RootComponent.AppRoot)).spawn
    (SpawnedBundle.cameraBundle "Camera")

namespace Demo

/-- bevy DebugName: the optional Name of an entity plus its id. -/
structure DebugName where
  name : Option String
  entity : BevyDioxus.Entity
deriving DecidableEq, Repr

/-- A value read through reflection. The inspector only supports bool and f32
fields; f32 payloads are kept opaque as bit patterns, other field types are
tagged otherVal. -/
inductive DynValue
  | boolVal (b : Bool)
  | f32Val (bits : Nat)
  | otherVal
deriving DecidableEq, Repr

/-- Type tags used to model the downcast target type of get_reflect_value. -/
inductive DynTag
  | boolTag
  | f32Tag
  | otherTag
deriving DecidableEq, Repr

/-- The tag of a reflected value, modelling its runtime type. -/
def DynValue.tag : DynValue → DynTag
  | .boolVal _ => .boolTag
  | .f32Val _ => .f32Tag
  | .otherVal => .otherTag

/-- bevy_reflect TypeInfo, restricted to what the inspector distinguishes: a
struct with named typed fields, or any other kind with its type path. -/
inductive TypeInfoKind
  | structType (fields : List (String × DynTag))
  | otherType (path : String)
deriving DecidableEq, Repr

/-- A reflected component snapshot: a struct of named field values, or a
non-struct reflect ref. -/
inductive ReflectData
  | structData (fields : List (String × DynValue))
  | otherData
deriving DecidableEq, Repr

/-- A type-registry registration: the TypeId, the TypeInfo, and the optional
ReflectComponent data giving per-entity reflected component values. -/
structure Registration where
  type_id : Nat
  typeInfo : TypeInfoKind
  reflect_component : Option (List (BevyDioxus.Entity × ReflectData))
deriving DecidableEq, Repr

/-- The AppTypeRegistry resource, as a list of registrations. -/
abbrev TypeRegistry := List Registration

/-- TypeRegistry.get: the registration for a TypeId, if registered. -/
def TypeRegistry.get (reg : TypeRegistry) (tid : Nat) : Option Registration :=
  reg.find? fun r => r.type_id == tid

/-- TypeRegistry.get_type_info: the TypeInfo for a TypeId, if registered. -/
def TypeRegistry.get_type_info (reg : TypeRegistry) (tid : Nat) : Option TypeInfoKind :=
  (TypeRegistry.get reg tid).map fun r => r.typeInfo

/-- ECS component metadata: the full type name and the optional TypeId
(bevy ComponentInfo). -/
structure ComponentInfo where
  name : String
  type_id : Option Nat
deriving DecidableEq, Repr

/-- An entity of the demo world: its id, its optional Name, whether it carries
the bevy_ui Node component, and the component ids of its archetype. -/
structure EntityRecord where
  id : BevyDioxus.Entity
  name : Option String
  hasNode : Bool
  archetype : List Nat
deriving DecidableEq, Repr

/-- The demo example world: the live entities, the component metadata table, the
AppTypeRegistry resource, and the id allocator used by spawn_empty. -/
structure DemoWorld where
  entities : List EntityRecord
  componentInfos : List (Nat × ComponentInfo)
  typeRegistry : TypeRegistry
  nextEntity : BevyDioxus.Entity
deriving DecidableEq, Repr

/-- World.get_entity: some exactly when the entity is alive. -/
def DemoWorld.get_entity (w : DemoWorld) (e : BevyDioxus.Entity) : Option EntityRecord :=
  w.entities.find? fun r => r.id == e

/-- Components.get_info: the metadata recorded for a component id. -/
def DemoWorld.get_info (w : DemoWorld) (cid : Nat) : Option ComponentInfo :=
  (w.componentInfos.find? fun p => p.1 == cid).map fun p => p.2

/-- World.spawn_empty: allocates the next id, adds an entity with an empty
archetype, and returns the new world with the new id. -/
def DemoWorld.spawn_empty (w : DemoWorld) : DemoWorld × BevyDioxus.Entity :=
  ({ w with
      entities :=
        w.entities ++ [{ id := w.nextEntity, name := none, hasNode := false, archetype := [] }],
      nextEntity := w.nextEntity + 1 },
   w.nextEntity)

/-- get_reflect_value (demo.rs lines 210 to 230): the chained reflection lookups.
The tid argument stands for type_info.type_id() and the t argument for the
downcast target type T; the final unwrap and the panicking world.entity call
are modelled as none. -/
def get_reflect_value (world : DemoWorld) (type_registry : TypeRegistry)
    (entity : BevyDioxus.Entity) (tid : Nat) (field_name : String) (t : DynTag) :
    Option DynValue :=
  (TypeRegistry.get type_registry tid).bind fun registration =>
    registration.reflect_component.bind fun reflect_component =>
      (world.get_entity entity).bind fun _ =>
        ((reflect_component.find? fun p => p.1 == entity).map fun p => p.2).bind fun data =>
          match data with
          | ReflectData.structData fields =>
            ((fields.find? fun p => p.1 == field_name).map fun p => p.2).bind fun v =>
              if v.tag = t then some v else none
          | ReflectData.otherData => none

/-- The EntityInspector read path for a selected entity (demo.rs lines 109 to
129): get the entity, then for every component id of its archetype read its
ComponentInfo, look its TypeInfo up in the registry, and split the full name
on the separator :: (rsplit_once for the short name, split_once for the crate
name); the result is sorted by short name. Every unwrap is an Option bind, so
none models a panic. -/
def entityInspectorComponents (world : DemoWorld) (type_registry : TypeRegistry)
    (selected_entity : BevyDioxus.Entity) :
    Option (List (String × String × Option TypeInfoKind)) :=
  (world.get_entity selected_entity).bind fun entity_ref =>
    (entity_ref.archetype.mapM fun component_id =>
      (world.get_info component_id).bind fun component_info =>
        (rsplit_once component_info.name "::").bind fun p1 =>
          (split_once component_info.name "::").map fun p2 =>
            (p1.2, p2.1,
              component_info.type_id.bind fun tid =>
                TypeRegistry.get_type_info type_registry tid)).map
      (sortBy fun a b => decide (a.1 ≤ b.1))

/-- The selection update performed by the per-entity button onclick in SceneTree
(demo.rs lines 66 to 73): a primary click toggles the selection for that
entity, any other button leaves the selection unchanged. -/
def sceneTreeEntityToggle (button : PointerButton) (entity : BevyDioxus.Entity)
    (selected : Option BevyDioxus.Entity) : Option BevyDioxus.Entity :=
  if button = PointerButton.Primary then
    if some entity = selected then none else some entity
  else selected

/-- A closure schedulable on the demo system scheduler; the spawn closure
mutates the world and writes the shared selection state. -/
abbrev DemoCmd :=
  DemoWorld → Option BevyDioxus.Entity → DemoWorld × Option BevyDioxus.Entity

/-- The state a demo UI event handler can touch: the world, the shared selection
state, the local Button state, the scheduler queue, and the propagation flag. -/
structure DemoCtx where
  world : DemoWorld
  selected_entity : Option BevyDioxus.Entity
  clicked : Bool
  hovered : Bool
  queue : List DemoCmd
  stopProp : Bool

/-- The SceneTree root node onclick (demo.rs line 58): writes None to the
selection state. -/
def sceneTreeRootOnClick (c : DemoCtx) : DemoCtx :=
  { c with selected_entity := none }

/-- The per-entity button onclick (demo.rs lines 66 to 73) acting on the handler
state: the toggle above, plus stop_propagation on a primary click. -/
def sceneTreeEntityOnClick (button : PointerButton) (entity : BevyDioxus.Entity)
    (c : DemoCtx) : DemoCtx :=
  { c with
      selected_entity := sceneTreeEntityToggle button entity c.selected_entity,
      stopProp := if button = PointerButton.Primary then true else c.stopProp }

/-- The closure queued by the Spawn Entity button (demo.rs lines 88 to 92):
spawns an empty entity and writes its id to the shared selection state. -/
def spawnEntityCmd : DemoCmd := fun world _sel =>
  let p := world.spawn_empty
  (p.1, some p.2)

/-- The Spawn Entity button onclick (demo.rs lines 86 to 95): a primary click
queues spawnEntityCmd through the system scheduler and stops propagation. -/
def spawnButtonOnClick (button : PointerButton) (c : DemoCtx) : DemoCtx :=
  if button = PointerButton.Primary then
    { c with queue := c.queue ++ [spawnEntityCmd], stopProp := true }
  else c

/-- Button onclick_down (demo.rs line 313): a primary press sets clicked. -/
def buttonOnClickDown (button : PointerButton) (c : DemoCtx) : DemoCtx :=
  if button = PointerButton.Primary then { c with clicked := true } else c

/-- Button onclick_up (demo.rs line 314): a primary release clears clicked. -/
def buttonOnClickUp (button : PointerButton) (c : DemoCtx) : DemoCtx :=
  if button = PointerButton.Primary then { c with clicked := false } else c

/-- Button onmouse_enter (demo.rs line 315): sets hovered. -/
def buttonOnMouseEnter (c : DemoCtx) : DemoCtx :=
  { c with hovered := true }

/-- Button onmouse_exit (demo.rs line 316): clears hovered and clicked. -/
def buttonOnMouseExit (c : DemoCtx) : DemoCtx :=
  { c with hovered := false, clicked := false }

/-- Modelled from the spec: the bridge hook use_world (not under src) exposes
read access to the ECS world from component logic; it returns the current
world and leaves the state unchanged. -/
def use_world : RenderM DemoWorld DemoWorld := fun w => (w, w)

/-- Modelled from the spec: the bridge hook use_resource (not under src), here
for AppTypeRegistry, reads the resource without mutating the world. -/
def use_resource_AppTypeRegistry : RenderM DemoWorld TypeRegistry :=
  fun w => (w.typeRegistry, w)

/-- Modelled from the spec: the bridge hook use_query_filtered (not under src),
here for (Entity, DebugName) filtered Without Node, reads the matching
entities without mutating the world. -/
def use_query_filtered_without_node :
    RenderM DemoWorld (List (BevyDioxus.Entity × DebugName)) :=
  fun w =>
    ((w.entities.filter fun r => !r.hasNode).map fun r =>
        (r.id, { name := r.name, entity := r.id }),
     w)

/-- Modelled from the spec: the bridge hook use_system_scheduler (not under src)
returns the handle used to defer closures; obtaining it reads nothing and
mutates nothing. -/
def use_system_scheduler : RenderM DemoWorld Unit := fun w => ((), w)

/-- The SceneTree component render (demo.rs lines 48 to 99): queries the
entities without a Node, sorts them by entity id, and builds the column of
entity buttons (or the no-entities text) followed by the Spawn Entity button.
Event handlers are modelled separately, so only labels appear here. -/
def sceneTreeRender (selected_entity : Option BevyDioxus.Entity) :
    RenderM DemoWorld El := do
  let q ← use_query_filtered_without_node
  let _scheduler ← use_system_scheduler
  let entities := sortBy (fun a b => decide (a.1 ≤ b.1)) q
  let children :=
    if entities.isEmpty then [El.text "No entities exist"]
    else
      entities.map fun p =>
        El.node [El.text (match p.2.name with
          | some n => n
          | none => "Entity (" ++ toString p.2.entity ++ ")")]
  pure (El.node (children ++ [El.node [El.text "Spawn Entity"]]))

/-- The element tree the EntityInspector produces from the world it has read
(demo.rs lines 131 to 163), with none modelling the panic of an unwrap on
the read path of demo.rs lines 109 to 129. -/
def entityInspectorElement (world : DemoWorld) (type_registry : TypeRegistry)
    (selected_entity : Option BevyDioxus.Entity) : Option El :=
  match selected_entity with
  | none => some (El.node [El.text "Select an entity to view its components"])
  | some e =>
    match entityInspectorComponents world type_registry e with
    | none => none
    | some components =>
      some (El.node (El.text "Entity Inspector" ::
        components.map fun c => El.node [El.text c.1, El.text c.2.1]))

/-- The EntityInspector component render (demo.rs lines 103 to 164): reads the
world and the AppTypeRegistry resource through the hooks, then computes the
inspector tree of the selected entity. -/
def entityInspectorRender (selected_entity : Option BevyDioxus.Entity) :
    RenderM DemoWorld (Option El) := do
  let world ← use_world
  let type_registry ← use_resource_AppTypeRegistry
  pure (entityInspectorElement world type_registry selected_entity)

/-- The Editor root component render (demo.rs lines 32 to 45): renders SceneTree
and EntityInspector for the current selection state. -/
def editorRender (selected_entity : Option BevyDioxus.Entity) :
    RenderM DemoWorld (Option El) := do
  let tree ← sceneTreeRender selected_entity
  let inspector ← entityInspectorRender selected_entity
  pure (inspector.map fun i => El.node [tree, i])

/-- A world in which the selected entity 0 has been despawned: no entity is
alive, matching the situation named by the TODO at demo.rs line 33. -/
def despawnedWorld : DemoWorld :=
  { entities := [], componentInfos := [], typeRegistry := [], nextEntity := 1 }

end Demo

namespace MainMenu

/-- bevy Timer modes. The examples only construct once-mode timers. -/
inductive TimerMode
  | Once
  | Repeating
deriving DecidableEq, Repr

/-- bevy Timer (external dependency), time in nanoseconds. -/
structure Timer where
  elapsed : Nat
  duration : Nat
  finishedFlag : Bool
  mode : TimerMode
deriving DecidableEq, Repr

/-- Timer.finished: whether the timer has reached its duration. -/
def Timer.finished (t : Timer) : Bool := t.finishedFlag

/-- bevy Timer.tick, per its documented behaviour: a finished non-repeating
timer is left unchanged; otherwise elapsed advances by delta, and when it
reaches the duration the timer finishes (Once clamps elapsed at the duration,
Repeating wraps it). -/
def Timer.tick (t : Timer) (delta : Nat) : Timer :=
  if t.mode ≠ TimerMode.Repeating ∧ t.finishedFlag then t
  else
    let e := t.elapsed + delta
    if t.duration ≤ e then
      match t.mode with
      | TimerMode.Once => { t with elapsed := t.duration, finishedFlag := true }
      | TimerMode.Repeating =>
        { t with elapsed := if t.duration = 0 then 0 else e % t.duration,
                 finishedFlag := true }
    else { t with elapsed := e, finishedFlag := false }

/-- GameTimer::new (main_menu.rs lines 29 to 31): Timer::from_seconds(3.0, Once),
a once-mode timer of 3000000000 nanoseconds. -/
def GameTimer.new : Timer :=
  { elapsed := 0, duration := 3000000000, finishedFlag := false,
    mode := TimerMode.Once }

/-- The main_menu example world: the State and NextState resources for
MenuState, the optional GameTimer resource, the AppExit event count, and the
remaining entities. -/
structure MenuWorld where
  menuState : MenuState
  nextMenuState : Option MenuState
  gameTimer : Option Timer
  appExitEvents : Nat
  entities : List BevyDioxus.Entity
deriving DecidableEq, Repr

/-- tick_game_timer (main_menu.rs lines 77 to 86): ticks the GameTimer resource
by the frame delta and sets NextState to Main when the ticked timer has
finished; none models the missing-resource panic of ResMut. -/
def tick_game_timer (delta : Nat) (w : MenuWorld) : Option MenuWorld :=
  w.gameTimer.map fun t =>
    let t2 := t.tick delta
    { w with
        gameTimer := some t2,
        nextMenuState :=
          if t2.finished then some MenuState.Main else w.nextMenuState }

/-- The closure queued by MenuButton (main_menu.rs lines 281 to 289):
ChangeState sets the NextState resource to the named state, Exit sends one
AppExit event. -/
def menuButtonClosure (action : MenuButtonAction) (world : MenuWorld) : MenuWorld :=
  match action with
  | MenuButtonAction.ChangeState s => { world with nextMenuState := some s }
  | MenuButtonAction.Exit => { world with appExitEvents := world.appExitEvents + 1 }

/-- The state a main_menu UI event handler can touch: the world, the local
Button state, the scheduler queue, and the propagation flag. -/
structure MenuCtx where
  world : MenuWorld
  clicked : Bool
  hovered : Bool
  queue : List (MenuWorld → MenuWorld)
  stopProp : Bool

/-- MenuButton onclick (main_menu.rs lines 279 to 292): a primary click queues
the action closure through the system scheduler and stops propagation; any
other button does nothing. -/
def menuButtonOnClick (action : MenuButtonAction) (button : PointerButton)
    (c : MenuCtx) : MenuCtx :=
  if button = PointerButton.Primary then
    { c with queue := c.queue ++ [menuButtonClosure action], stopProp := true }
  else c

/-- Button onclick_down (main_menu.rs line 321): a primary press sets clicked. -/
def menuBtnDown (button : PointerButton) (c : MenuCtx) : MenuCtx :=
  if button = PointerButton.Primary then { c with clicked := true } else c

/-- Button onclick_up (main_menu.rs line 322): a primary release clears clicked. -/
def menuBtnUp (button : PointerButton) (c : MenuCtx) : MenuCtx :=
  if button = PointerButton.Primary then { c with clicked := false } else c

/-- Button onmouse_enter (main_menu.rs line 323): sets hovered. -/
def menuBtnEnter (c : MenuCtx) : MenuCtx :=
  { c with hovered := true }

/-- Button onmouse_exit (main_menu.rs line 324): clears hovered and clicked. -/
def menuBtnExit (c : MenuCtx) : MenuCtx :=
  { c with hovered := false, clicked := false }

/-- MenuPanel (main_menu.rs lines 211 to 236): a centered panel with a header
holding the title, above the children. -/
def menuPanelEl (title : String) (children : List El) : El :=
  El.node [El.node [El.node [El.text title], El.node children]]

/-- Modelled from the spec: the bridge hook use_resource (not under src), here
for State MenuState, reads the current state resource without mutating the
world. -/
def use_resource_StateMenuState : RenderM MenuWorld MenuState :=
  fun w => (w.menuState, w)

/-- The MainMenu component render (main_menu.rs lines 140 to 167): a panel with
the Play, Settings, Credits and Quit buttons. -/
def mainMenuRender : RenderM MenuWorld El :=
  pure (menuPanelEl "Main Menu"
    [El.node [El.text "Play"], El.node [El.text "Settings"],
     El.node [El.text "Credits"], El.node [El.text "Quit"]])

/-- The SettingsMenu component render (main_menu.rs lines 171 to 186). -/
def settingsMenuRender : RenderM MenuWorld El :=
  pure (menuPanelEl "Settings"
    [El.text "TODO: Settings menu", El.node [El.text "Back"]])

/-- The CreditsMenu component render (main_menu.rs lines 190 to 207). -/
def creditsMenuRender : RenderM MenuWorld El :=
  pure (menuPanelEl "Credits"
    [El.text "- bevy", El.text "- bevy_dioxus", El.text "- dioxus",
     El.node [El.text "Back"]])

/-- The AppRoot component render (main_menu.rs lines 111 to 130): matches on the
menu state resource to pick the menu to render; renders nothing in Game. -/
def appRootRender : RenderM MenuWorld El := do
  let menu_state ← use_resource_StateMenuState
  match menu_state with
  | MenuState.Main => mainMenuRender
  | MenuState.Settings => settingsMenuRender
  | MenuState.Credits => creditsMenuRender
  | MenuState.Game => pure (El.text "")

/-- A concrete in-game world used to instantiate theorems with hypotheses. -/
def sampleGameWorld : MenuWorld :=
  { menuState := MenuState.Game, nextMenuState := none,
    gameTimer := some GameTimer.new, appExitEvents := 0, entities := [] }

end MainMenu

/-- C1: every UI event handler in both examples leaves the ECS world unchanged
between its invocation and the next ECS update; the world mutations a handler
initiates are performed only by queuing closures through
system_scheduler.schedule (the Spawn Entity button queues spawnEntityCmd and
MenuButton queues its action closure, on primary clicks only, while every
other handler also leaves the queue untouched). -/
theorem c1_handlers_only_schedule_world_mutations
    (c : Demo.DemoCtx) (m : MainMenu.MenuCtx) (b : PointerButton)
    (e : Entity) (a : MenuButtonAction) :
    (Demo.sceneTreeRootOnClick c).world = c.world
  ∧ (Demo.sceneTreeEntityOnClick b e c).world = c.world
  ∧ (Demo.spawnButtonOnClick b c).world = c.world
  ∧ (Demo.buttonOnClickDown b c).world = c.world
  ∧ (Demo.buttonOnClickUp b c).world = c.world
  ∧ (Demo.buttonOnMouseEnter c).world = c.world
  ∧ (Demo.buttonOnMouseExit c).world = c.world
  ∧ (MainMenu.menuButtonOnClick a b m).world = m.world
  ∧ (MainMenu.menuBtnDown b m).world = m.world
  ∧ (MainMenu.menuBtnUp b m).world = m.world
  ∧ (MainMenu.menuBtnEnter m).world = m.world
  ∧ (MainMenu.menuBtnExit m).world = m.world
  ∧ (Demo.sceneTreeRootOnClick c).queue = c.queue
  ∧ (Demo.sceneTreeEntityOnClick b e c).queue = c.queue
  ∧ (Demo.buttonOnClickDown b c).queue = c.queue
  ∧ (Demo.buttonOnClickUp b c).queue = c.queue
  ∧ (Demo.buttonOnMouseEnter c).queue = c.queue
  ∧ (Demo.buttonOnMouseExit c).queue = c.queue
  ∧ (Demo.spawnButtonOnClick b c).queue
      = c.queue ++ (if b = PointerButton.Primary then [Demo.spawnEntityCmd] else [])
  ∧ (MainMenu.menuButtonOnClick a b m).queue
      = m.queue ++ (if b = PointerButton.Primary
                    then [MainMenu.menuButtonClosure a] else []) := by
  cases b <;>
    simp [Demo.sceneTreeRootOnClick, Demo.sceneTreeEntityOnClick,
      Demo.spawnButtonOnClick, Demo.buttonOnClickDown, Demo.buttonOnClickUp,
      Demo.buttonOnMouseEnter, Demo.buttonOnMouseExit,
      MainMenu.menuButtonOnClick, MainMenu.menuBtnDown, MainMenu.menuBtnUp,
      MainMenu.menuBtnEnter, MainMenu.menuBtnExit]

/-- C2: the EntityInspector read path is not safe for every selection the state
can hold: with entity 0 selected but despawned (the situation recorded by the
TODO at demo.rs line 33), world.get_entity returns none, so the first unwrap
of the read path panics; that panic is modelled by the read and the render
returning none, against the claim that every read succeeds. -/
theorem c2_inspector_read_fails_when_selected_entity_despawned :
    Demo.despawnedWorld.get_entity 0 = none
  ∧ Demo.entityInspectorComponents Demo.despawnedWorld
      Demo.despawnedWorld.typeRegistry 0 = none
  ∧ (Demo.entityInspectorRender (some 0) Demo.despawnedWorld).1 = none :=
  ⟨rfl, rfl, rfl⟩

/-- C3: rendering is read-only with respect to the ECS world: running any of the
component render functions of the two examples on any world returns that
world unchanged. -/
theorem c3_render_preserves_world (w : Demo.DemoWorld) (v : MainMenu.MenuWorld)
    (sel : Option Entity) :
    (Demo.sceneTreeRender sel w).2 = w
  ∧ (Demo.entityInspectorRender sel w).2 = w
  ∧ (Demo.editorRender sel w).2 = w
  ∧ (MainMenu.appRootRender v).2 = v
  ∧ (MainMenu.mainMenuRender v).2 = v
  ∧ (MainMenu.settingsMenuRender v).2 = v
  ∧ (MainMenu.creditsMenuRender v).2 = v := by
  refine ⟨rfl, rfl, rfl, ?_, rfl, rfl, rfl⟩
  rcases v with ⟨ms, ns, gt, ae, ents⟩
  cases ms <;> rfl

/-- C5: each Startup system spawns exactly one entity carrying a DioxusUiBundle
around its root component and exactly one camera entity named Camera, and
spawns nothing else. -/
theorem c5_startup_spawns_ui_root_and_camera (c : Commands) :
    (demoStartup c).spawned
      = c.spawned ++ [SpawnedBundle.dioxusUiBundle RootComponent.Editor,
                      SpawnedBundle.cameraBundle "Camera"]
  ∧ (mainMenuStartup c).spawned
      = c.spawned ++ [SpawnedBundle.dioxusUiBundle RootComponent.AppRoot,
                      SpawnedBundle.cameraBundle "Camera"] := by
  constructor <;> simp [demoStartup, mainMenuStartup, Commands.spawn]

/-- C6: in SceneTree a primary click on the button of entity e toggles the
selection (deselects when e was selected, selects e otherwise), a
non-primary click leaves the selection unchanged, and two consecutive
primary clicks from a state not selecting e end with no selection. -/
theorem c6_selection_toggle (e : Entity) (s : Option Entity) :
    Demo.sceneTreeEntityToggle PointerButton.Primary e s
      = (if s = some e then none else some e)
  ∧ Demo.sceneTreeEntityToggle PointerButton.Secondary e s = s
  ∧ Demo.sceneTreeEntityToggle PointerButton.Middle e s = s
  ∧ (s ≠ some e →
      Demo.sceneTreeEntityToggle PointerButton.Primary e
        (Demo.sceneTreeEntityToggle PointerButton.Primary e s) = none) := by
  refine ⟨?_, rfl, rfl, ?_⟩
  · simp [Demo.sceneTreeEntityToggle, eq_comm]
  · intro h
    have hne : ¬ (some e = s) := fun hh => h hh.symm
    simp [Demo.sceneTreeEntityToggle, hne]

/-- C6 witness: two consecutive primary clicks on the button of entity 0,
starting from the empty selection, end with no selection. -/
theorem c6_selection_toggle_witness :
    Demo.sceneTreeEntityToggle PointerButton.Primary 0
      (Demo.sceneTreeEntityToggle PointerButton.Primary 0 none) = none :=
  (c6_selection_toggle 0 none).2.2.2 (by decide)

/-- C7: the closure MenuButton queues performs exactly the mutation its action
names: ChangeState s only sets the NextState resource to s, Exit only adds a
single AppExit event, and a non-primary click queues no closure at all. -/
theorem c7_menu_button_action_exact (s : MenuState) (w : MainMenu.MenuWorld)
    (a : MenuButtonAction) (m : MainMenu.MenuCtx) :
    MainMenu.menuButtonClosure (MenuButtonAction.ChangeState s) w
      = { w with nextMenuState := some s }
  ∧ MainMenu.menuButtonClosure MenuButtonAction.Exit w
      = { w with appExitEvents := w.appExitEvents + 1 }
  ∧ (MainMenu.menuButtonOnClick a PointerButton.Secondary m).queue = m.queue
  ∧ (MainMenu.menuButtonOnClick a PointerButton.Middle m).queue = m.queue
  ∧ (MainMenu.menuButtonOnClick a PointerButton.Primary m).queue
      = m.queue ++ [MainMenu.menuButtonClosure a] :=
  ⟨rfl, rfl, rfl, rfl, rfl⟩

/-- C8: when the GameTimer resource is present, tick_game_timer ticks it by the
frame delta and sets NextState to Main exactly when the ticked timer has
finished, leaving NextState and everything else unchanged otherwise;
GameTimer.new is a fresh once-mode 3 second timer, and for such an unfinished
once-mode timer the tick advances elapsed by the delta and finishes exactly
when the duration is reached. -/
theorem c8_tick_game_timer_returns_to_main (w : MainMenu.MenuWorld)
    (t : MainMenu.Timer) (delta : Nat) (h : w.gameTimer = some t) :
    MainMenu.tick_game_timer delta w
      = some { w with
          gameTimer := some (t.tick delta),
          nextMenuState :=
            if (t.tick delta).finished then some MenuState.Main
            else w.nextMenuState }
  ∧ MainMenu.GameTimer.new
      = { elapsed := 0, duration := 3000000000, finishedFlag := false,
          mode := MainMenu.TimerMode.Once }
  ∧ (t.finishedFlag = false → t.mode = MainMenu.TimerMode.Once →
      ((t.tick delta).finished = true ↔ t.duration ≤ t.elapsed + delta)
      ∧ (t.elapsed + delta < t.duration →
          (t.tick delta).elapsed = t.elapsed + delta)) := by
  refine ⟨?_, rfl, ?_⟩
  · simp [MainMenu.tick_game_timer, h]
  · intro hf hm
    by_cases hle : t.duration ≤ t.elapsed + delta <;>
      simp [MainMenu.Timer.tick, MainMenu.Timer.finished, hf, hm, hle]

/-- C8 witness: ticking the fresh 3 second GameTimer by 1 second in the sample
in-game world stores the ticked timer and leaves NextState untouched. -/
theorem c8_tick_game_timer_returns_to_main_witness :
    MainMenu.tick_game_timer 1000000000 MainMenu.sampleGameWorld
      = some { MainMenu.sampleGameWorld with
          gameTimer := some (MainMenu.GameTimer.new.tick 1000000000),
          nextMenuState :=
            if (MainMenu.GameTimer.new.tick 1000000000).finished
            then some MenuState.Main
            else MainMenu.sampleGameWorld.nextMenuState } :=
  (c8_tick_game_timer_returns_to_main MainMenu.sampleGameWorld
    MainMenu.GameTimer.new 1000000000 rfl).1

end BevyDioxus
